import Mathlib

/-!
Verification of the `wah` WebSocket client library.

This file gives a shallow embedding of the two stateful cores of the
repository — the connection manager (`src/connection/WebSocketConnection.ts`)
and the message router (`src/router/WebSocketRouter.ts`) — together with the
facade glue in `src/WebSocketClient.ts`, and proves the behavioural
properties stated about them.

Modelling conventions:
* JavaScript numbers used for delays are modelled as exact rationals (`ℚ`);
  `Math.round` is modelled as `fun q => ⌊q + 1/2⌋` (round half towards +∞),
  `Math.min` as `min`, `Math.pow` with a natural exponent as `^`.
* Timers are modelled by liveness flags (`pingTimer`, `reconnectTimer`):
  `setInterval`/`setTimeout` set the flag, `clearInterval`/`clearTimeout`
  clear it.  The firing of the reconnect timer (its callback runs
  `cleanup(); run()`) is applied explicitly in the failure-step semantics.
* The transport socket is a capability.  Its handle is `Option WsReadyState`
  (`null` / a socket in one of the four `ws` ready states); `new WebSocket`
  yields a handle in the CONNECTING state, and the transport's own
  `open`/`message`/`error`/`close` events are modelled as explicit state
  transitions (`onOpen`, `onMessageConn`, `onErrorEvent`, `onCloseEvent`).
* Emitted `EventEmitter` events are collected into explicit event lists.
-/

namespace Wah

/-- A query-parameter value: `string | number | boolean` in the source. -/
inductive Scalar where
  | s (v : String)
  | n (v : ℚ)
  | b (v : Bool)
deriving DecidableEq

/-- `String(value)` as used by `url.searchParams.set(key, String(value))`. -/
def Scalar.render : Scalar → String
  | .s v => v
  | .n v => toString v
  | .b v => if v then "true" else "false"

/-- A JavaScript object holding query parameters, as an insertion-ordered
association list (JS objects have unique keys; `getParam` reads the first
binding, matching property lookup). -/
abbrev Params := List (String × Scalar)

/-- JS property read `ps[k]` (first binding wins; JS objects are unique-keyed). -/
def getParam : Params → String → Option Scalar
  | [], _ => none
  | (k', v) :: ps, k => if k' = k then some v else getParam ps k

/-- JS property write `ps[k] = v`: updates the existing key in place keeping
its position, else appends a new binding (JS object insertion order). -/
def objSet : Params → String → Scalar → Params
  | [], k, v => [(k, v)]
  | (k', v') :: ps, k, v =>
    if k' = k then (k', v) :: ps else (k', v') :: objSet ps k v

/-- The object spread `{...ps, ...qs}` from `updateParams` (line 108):
iterate the own properties of `qs`, writing each into a copy of `ps`. -/
def mergeParams (ps qs : Params) : Params :=
  qs.foldl (fun acc p => objSet acc p.1 p.2) ps

/-- `reconnectConfig` (`Required<ReconnectOptions>`), lines 47-53. -/
structure ReconnectConfig where
  initialDelay : ℚ
  maxDelay : ℚ
  backoffFactor : ℚ
  maxAttempts : ℕ
  maxServiceCycles : ℕ

/-- The `ws` library's socket ready states. -/
inductive WsReadyState where
  | connecting
  | opened
  | closing
  | closed
deriving DecidableEq

/-- `ConnectionState` from `src/connection/types.ts`. -/
inductive ConnectionState where
  | connecting
  | connected
  | closing
  | closed
deriving DecidableEq

/-- The mutable instance state of `WebSocketConnection` (lines 20-35).
`pingTimer`/`reconnectTimer` are modelled by their liveness. -/
structure ConnState where
  services : List String
  queryParams : Params
  serviceIndex : ℕ
  reconnectAttempts : ℕ
  serviceCycles : ℕ
  isConnecting : Bool
  shouldReconnect : Bool
  messageCount : ℕ
  lastMessageTime : ℕ
  ws : Option WsReadyState
  pingTimer : Bool
  reconnectTimer : Bool

/-- State right after the constructor: `ws`/timers null, counters zero,
`shouldReconnect = true` (field initializers, lines 25-35). -/
def initState (services : List String) (queryParams : Params) : ConnState :=
  { services := services
    queryParams := queryParams
    serviceIndex := 0
    reconnectAttempts := 0
    serviceCycles := 0
    isConnecting := false
    shouldReconnect := true
    messageCount := 0
    lastMessageTime := 0
    ws := none
    pingTimer := false
    reconnectTimer := false }

/-- Events emitted by `WebSocketConnection` (class doc comment, lines 11-17).
`message` events are handled separately by the facade model below. -/
inductive Event where
  | opened
  | closed (code : ℤ) (reason : String)
  | errored
  | reconnecting (attempt : ℕ) (maxAttempts : ℕ) (delay : ℤ) (service : String)
  | serviceSwitched (fromService : String) (toService : String) (cycle : ℕ)
deriving DecidableEq

/-- `Math.round`: round half towards positive infinity. -/
def jsRound (q : ℚ) : ℤ := ⌊q + 1 / 2⌋

/-- `getState` (lines 138-150). -/
def getState (s : ConnState) : ConnectionState :=
  match s.ws with
  | none => .closed
  | some .connecting => .connecting
  | some .opened => .connected
  | some .closing => .closing
  | some .closed => .closed

/-- `buildUrl` (lines 156-166).  The WHATWG `URL` / `searchParams` machinery
is a boundary capability; it is modelled as appending the rendered query
string to the base address (empty overlay returns the base unchanged, as in
the source). -/
def buildUrl (ps : Params) (base : String) : String :=
  if ps.isEmpty then base
  else base ++ "?" ++ String.intercalate "&" (ps.map fun p => p.1 ++ "=" ++ p.2.render)

/-- `getCurrentServiceUrl` (lines 152-154). -/
def getCurrentServiceUrl (s : ConnState) : String :=
  buildUrl s.queryParams (s.services.getD s.serviceIndex "")

/-- `cleanup` (lines 287-300): detach and drop the socket handle, clear the
reconnect timer. -/
def cleanup (s : ConnState) : ConnState :=
  { s with ws := none, reconnectTimer := false }

/-- `run` (lines 168-219), synchronous part: bail out if already connecting,
else mark connecting and create a fresh socket handle in the CONNECTING
state (the transport's later events are modelled by the `on...` transitions
below). -/
def run (s : ConnState) : ConnState :=
  if s.isConnecting then s
  else { s with isConnecting := true, ws := some .connecting }

/-- `connect` (lines 59-66). -/
def connect (s : ConnState) : ConnState :=
  if s.isConnecting = true ∨ getState s = .connected then s
  else run { s with shouldReconnect := true }

/-- The `ws` library's `close()` on a handle: CLOSED stays CLOSED, any other
state moves towards CLOSING. -/
def wsClose : WsReadyState → WsReadyState
  | .closed => .closed
  | _ => .closing

/-- `close` (lines 71-83): stop intent, stop heartbeat, clear reconnect
timer, ask the live socket (if any) to close. -/
def close (s : ConnState) : ConnState :=
  let s1 := { s with shouldReconnect := false, pingTimer := false, reconnectTimer := false }
  match s1.ws with
  | none => s1
  | some st => { s1 with ws := some (wsClose st) }

/-- `send` (lines 89-101).  The transport's own `ws.send` is a capability
that may fail (the `catch` branch); `transportSend` returns whether the
write was accepted. -/
def send (s : ConnState) (transportSend : String → Bool) (data : String) : Bool :=
  match s.ws with
  | some .opened => if transportSend data then true else false
  | _ => false

/-- `getConnectionInfo` (lines 121-132). -/
structure ConnectionInfo where
  state : ConnectionState
  currentService : String
  serviceIndex : ℕ
  allServices : List String
  reconnectAttempts : ℕ
  serviceCycles : ℕ
  messageCount : ℕ
  lastMessageTime : ℕ
deriving DecidableEq

/-- `getConnectionInfo` (lines 121-132): a field-by-field copy of the
observable state (`allServices` is the copy `[...this.services]`; the
aliasing-freedom of that copy is modelled separately with an explicit
store below). -/
def getConnectionInfo (s : ConnState) : ConnectionInfo :=
  { state := getState s
    currentService := getCurrentServiceUrl s
    serviceIndex := s.serviceIndex
    allServices := s.services
    reconnectAttempts := s.reconnectAttempts
    serviceCycles := s.serviceCycles
    messageCount := s.messageCount
    lastMessageTime := s.lastMessageTime }

/-- `reconnectConfig`-driven backoff delay for attempt number `a` (lines
237-241): `Math.min(initialDelay * backoffFactor ^ (a - 1), maxDelay)`,
rounded as emitted (line 253). -/
def delayAt (cfg : ReconnectConfig) (a : ℕ) : ℤ :=
  jsRound (min (cfg.initialDelay * cfg.backoffFactor ^ (a - 1)) cfg.maxDelay)

/-- `canTryNextService` (lines 264-266). -/
def canTryNextService (cfg : ReconnectConfig) (s : ConnState) : Prop :=
  1 < s.services.length ∧ s.serviceCycles < cfg.maxServiceCycles

instance (cfg : ReconnectConfig) (s : ConnState) : Decidable (canTryNextService cfg s) :=
  inferInstanceAs (Decidable (_ ∧ _))

/-- What `scheduleReconnect` decided to do next. -/
inductive ReconnectDecision where
  | retryScheduled
  | switched
  | giveUp
deriving DecidableEq

/-- `moveToNextService` (lines 268-285): advance the index (wrapping), bump
the cycle counter on wrap, reset the per-endpoint attempt counter, emit
`serviceSwitched`, then `cleanup(); run()` immediately. -/
def moveToNextService (s : ConnState) : ConnState × List Event × ReconnectDecision :=
  let prev := s.serviceIndex
  let idx := (prev + 1) % s.services.length
  let cyc := if idx = 0 then s.serviceCycles + 1 else s.serviceCycles
  let s1 := { s with serviceIndex := idx, serviceCycles := cyc, reconnectAttempts := 0 }
  (run (cleanup s1),
   [.serviceSwitched (s.services.getD prev "") (s.services.getD idx "") cyc],
   .switched)

/-- `scheduleReconnect` (lines 221-262): bump the attempt counter; if the
per-endpoint budget is exhausted either fail over or give up, otherwise
emit `reconnecting` and start the reconnect timer. -/
def scheduleReconnect (cfg : ReconnectConfig) (s : ConnState) :
    ConnState × List Event × ReconnectDecision :=
  let s1 := { s with reconnectAttempts := s.reconnectAttempts + 1 }
  if cfg.maxAttempts ≤ s1.reconnectAttempts then
    if canTryNextService cfg s1 then moveToNextService s1
    else (s1, [], .giveUp)
  else
    ({ s1 with reconnectTimer := true },
     [.reconnecting s1.reconnectAttempts cfg.maxAttempts
        (delayAt cfg s1.reconnectAttempts) (getCurrentServiceUrl s1)],
     .retryScheduled)

/-- The socket `open` handler (lines 180-187): clear the connecting flag,
reset both failure counters, start the heartbeat, emit `open`.  The
transport has moved the handle to the OPEN state. -/
def onOpen (s : ConnState) : ConnState × List Event :=
  ({ s with ws := some .opened, isConnecting := false,
            reconnectAttempts := 0, serviceCycles := 0, pingTimer := true },
   [.opened])

/-- The socket `message` handler (lines 189-193): count the message and
record its arrival time (`Date.now()` passed in as `now`). -/
def onMessageConn (s : ConnState) (now : ℕ) : ConnState :=
  { s with messageCount := s.messageCount + 1, lastMessageTime := now }

/-- The socket `error` handler (lines 195-199). -/
def onErrorEvent (s : ConnState) : ConnState × List Event :=
  ({ s with isConnecting := false }, [.errored])

/-- The socket `close` handler (lines 201-211): the handle is now CLOSED;
clear the connecting flag, stop the heartbeat, emit `close`, and — only if
reconnection is still wanted — run `scheduleReconnect`.  The returned
`Bool` records whether another open attempt is still coming (a pending
reconnect timer or an already-performed failover `run`). -/
def onCloseEvent (cfg : ReconnectConfig) (s : ConnState) (code : ℤ) (reason : String) :
    ConnState × List Event × Bool :=
  let s1 := { s with isConnecting := false, pingTimer := false, ws := some .closed }
  if s1.shouldReconnect then
    match scheduleReconnect cfg s1 with
    | (s2, evs, .retryScheduled) => (s2, .closed code reason :: evs, true)
    | (s2, evs, .switched) => (s2, .closed code reason :: evs, true)
    | (s2, evs, .giveUp) => (s2, .closed code reason :: evs, false)
  else (s1, [.closed code reason], false)

/-- One failed open attempt, as delivered by the transport: an `error`
event followed by a `close` event (code 1006, abnormal closure); if a
reconnect timer was started, it then fires (`cleanup(); run()`, lines
258-261).  Returns the state after all of that, the emitted events, and
whether a further open attempt was made. -/
def failStep (cfg : ReconnectConfig) (s : ConnState) : ConnState × List Event × Bool :=
  let s1 := { s with isConnecting := false }
  let r := onCloseEvent cfg s1 1006 ""
  if r.2.2 && r.1.reconnectTimer then (run (cleanup r.1), .errored :: r.2.1, true)
  else (r.1, .errored :: r.2.1, r.2.2)

/-- Drive the manager through consecutive failed open attempts until it
stops retrying (or fuel runs out).  Returns the emitted events, the number
of failed open attempts consumed, and `true` exactly when the manager gave
up on its own (no further attempt follows). -/
def runAllFail (cfg : ReconnectConfig) : ℕ → ConnState → List Event × ℕ × Bool
  | 0, _ => ([], 0, false)
  | fuel + 1, s =>
    let r := failStep cfg s
    if r.2.2 then
      let rest := runAllFail cfg fuel r.1
      (r.2.1 ++ rest.1, rest.2.1 + 1, rest.2.2)
    else (r.2.1, 1, true)

/-- `updateParams` (lines 107-116): merge the new parameters into the
overlay, tear the socket down without scheduling side effects, zero both
failure counters, reconnect. -/
def updateParams (s : ConnState) (ps : Params) : ConnState :=
  let s1 := { s with queryParams := mergeParams s.queryParams ps }
  let s2 := cleanup s1
  run { s2 with reconnectAttempts := 0, serviceCycles := 0 }

/-- Project a `reconnecting` event onto its payload. -/
def reconOf : Event → Option (ℕ × ℕ × ℤ × String)
  | .reconnecting a m d u => some (a, m, d, u)
  | _ => none

/-- Is this a `serviceSwitched` event? -/
def isSwitchedEv : Event → Bool
  | .serviceSwitched _ _ _ => true
  | _ => false

/-- Is this a `reconnecting` event? -/
def isReconEv : Event → Bool
  | .reconnecting _ _ _ _ => true
  | _ => false

/-- The state of a manager that is in the middle of an open attempt that
has not yet been answered by the transport: socket handle freshly created
(CONNECTING), no timers, counters as given.  `connect` on a fresh instance
produces this state, and every retry (timer fire or failover) returns to
it. -/
def mkS (svcs : List String) (qp : Params) (idx a c : ℕ) : ConnState :=
  { services := svcs
    queryParams := qp
    serviceIndex := idx
    reconnectAttempts := a
    serviceCycles := c
    isConnecting := true
    shouldReconnect := true
    messageCount := 0
    lastMessageTime := 0
    ws := some .connecting
    pingTimer := false
    reconnectTimer := false }

theorem connect_initState (svcs : List String) (qp : Params) :
    connect (initState svcs qp) = mkS svcs qp 0 0 0 := rfl

theorem failStep_retry (cfg : ReconnectConfig) (svcs : List String) (qp : Params)
    (idx a c : ℕ) (h : a + 1 < cfg.maxAttempts) :
    failStep cfg (mkS svcs qp idx a c) =
      (mkS svcs qp idx (a + 1) c,
       [.errored, .closed 1006 "",
        .reconnecting (a + 1) cfg.maxAttempts (delayAt cfg (a + 1))
          (buildUrl qp (svcs.getD idx ""))],
       true) := by
  have hle : ¬ (cfg.maxAttempts ≤ a + 1) := by omega
  simp [failStep, onCloseEvent, scheduleReconnect, mkS, run, cleanup,
    getCurrentServiceUrl, hle]

theorem failStep_switch (cfg : ReconnectConfig) (svcs : List String) (qp : Params)
    (idx a c : ℕ) (h : cfg.maxAttempts ≤ a + 1) (h2 : 1 < svcs.length)
    (h3 : c < cfg.maxServiceCycles) :
    failStep cfg (mkS svcs qp idx a c) =
      (mkS svcs qp ((idx + 1) % svcs.length) 0
        (if (idx + 1) % svcs.length = 0 then c + 1 else c),
       [.errored, .closed 1006 "",
        .serviceSwitched (svcs.getD idx "") (svcs.getD ((idx + 1) % svcs.length) "")
          (if (idx + 1) % svcs.length = 0 then c + 1 else c)],
       true) := by
  simp [failStep, onCloseEvent, scheduleReconnect, moveToNextService, mkS, run,
    cleanup, canTryNextService, h, h2, h3]

theorem failStep_giveUp (cfg : ReconnectConfig) (svcs : List String) (qp : Params)
    (idx a c : ℕ) (h : cfg.maxAttempts ≤ a + 1)
    (h2 : ¬(1 < svcs.length ∧ c < cfg.maxServiceCycles)) :
    failStep cfg (mkS svcs qp idx a c) =
      ({ mkS svcs qp idx (a + 1) c with
          isConnecting := false, ws := some .closed },
       [.errored, .closed 1006 ""],
       false) := by
  simp [failStep, onCloseEvent, scheduleReconnect, mkS, run, cleanup,
    canTryNextService, h, h2]

/-- The events emitted while one endpoint's retry budget burns down: `k`
reconnect-and-retry rounds (attempt counter starting at `a`), then the
final failed attempt (`errored`, `closed`) followed by `tail` (empty on
give-up, a `serviceSwitched` event on failover). -/
def segBlock (cfg : ReconnectConfig) (url : String) (tail : List Event) :
    ℕ → ℕ → List Event
  | _, 0 => [.errored, .closed 1006 ""] ++ tail
  | a, k + 1 =>
    [.errored, .closed 1006 "",
     .reconnecting (a + 1) cfg.maxAttempts (delayAt cfg (a + 1)) url]
    ++ segBlock cfg url tail (a + 1) k

/-- Exhausting a single endpoint with no failover available: starting at
attempt counter `a` with `a + k + 1 = maxAttempts`, the manager performs
`k + 1` further failed attempts, emits exactly the `segBlock` events with
an empty tail, and gives up. -/
theorem seg_stop (cfg : ReconnectConfig) (svcs : List String) (qp : Params)
    (idx c : ℕ) (hcant : ¬(1 < svcs.length ∧ c < cfg.maxServiceCycles)) :
    ∀ k f a, a + k + 1 = cfg.maxAttempts →
    runAllFail cfg (k + 1 + f) (mkS svcs qp idx a c) =
      (segBlock cfg (buildUrl qp (svcs.getD idx "")) [] a k, k + 1, true) := by
  intro k
  induction k with
  | zero =>
    intro f a ha
    have hf : 0 + 1 + f = f + 1 := by omega
    rw [hf]
    simp only [runAllFail]
    rw [failStep_giveUp cfg svcs qp idx a c (by omega) hcant]
    simp [segBlock]
  | succ k ih =>
    intro f a ha
    have hf : k + 1 + 1 + f = (k + 1 + f) + 1 := by omega
    rw [hf]
    simp only [runAllFail]
    rw [failStep_retry cfg svcs qp idx a c (by omega)]
    simp only []
    rw [ih f (a + 1) (by omega)]
    simp [segBlock]

/-- Exhausting one endpoint's retry budget when failover is available:
`k + 1` further failed attempts, the `segBlock` events with a
`serviceSwitched` tail, then the run continues from the next endpoint with
the attempt counter reset (and the cycle counter bumped on wraparound). -/
theorem seg_go (cfg : ReconnectConfig) (svcs : List String) (qp : Params)
    (idx c : ℕ) (h2 : 1 < svcs.length) (h3 : c < cfg.maxServiceCycles) :
    ∀ k f a, a + k + 1 = cfg.maxAttempts →
    runAllFail cfg (k + 1 + f) (mkS svcs qp idx a c) =
      (segBlock cfg (buildUrl qp (svcs.getD idx ""))
         [.serviceSwitched (svcs.getD idx "") (svcs.getD ((idx + 1) % svcs.length) "")
            (if (idx + 1) % svcs.length = 0 then c + 1 else c)] a k
        ++ (runAllFail cfg f (mkS svcs qp ((idx + 1) % svcs.length) 0
              (if (idx + 1) % svcs.length = 0 then c + 1 else c))).1,
       (runAllFail cfg f (mkS svcs qp ((idx + 1) % svcs.length) 0
          (if (idx + 1) % svcs.length = 0 then c + 1 else c))).2.1 + (k + 1),
       (runAllFail cfg f (mkS svcs qp ((idx + 1) % svcs.length) 0
          (if (idx + 1) % svcs.length = 0 then c + 1 else c))).2.2) := by
  intro k
  induction k with
  | zero =>
    intro f a ha
    have hf : 0 + 1 + f = f + 1 := by omega
    rw [hf]
    simp only [runAllFail]
    rw [failStep_switch cfg svcs qp idx a c (by omega) h2 h3]
    simp [segBlock]
  | succ k ih =>
    intro f a ha
    have hf : k + 1 + 1 + f = (k + 1 + f) + 1 := by omega
    rw [hf]
    simp only [runAllFail]
    rw [failStep_retry cfg svcs qp idx a c (by omega)]
    simp only []
    rw [ih f (a + 1) (by omega)]
    simp [segBlock]
    omega

theorem segBlock_countP_switched (cfg : ReconnectConfig) (url : String)
    (tail : List Event) : ∀ k a,
    (segBlock cfg url tail a k).countP isSwitchedEv = tail.countP isSwitchedEv := by
  intro k
  induction k with
  | zero => intro a; simp [segBlock, isSwitchedEv, List.countP_cons]
  | succ k ih => intro a; simp [segBlock, isSwitchedEv, List.countP_cons, ih (a + 1)]

theorem segBlock_countP_recon (cfg : ReconnectConfig) (url : String)
    (tail : List Event) : ∀ k a,
    (segBlock cfg url tail a k).countP isReconEv = k + tail.countP isReconEv := by
  intro k
  induction k with
  | zero => intro a; simp [segBlock, isReconEv, List.countP_cons]
  | succ k ih =>
    intro a
    simp [segBlock, isReconEv, List.countP_cons, ih (a + 1)]
    omega

theorem segBlock_filterMap_reconOf (cfg : ReconnectConfig) (url : String)
    (tail : List Event) : ∀ k a,
    (segBlock cfg url tail a k).filterMap reconOf =
      (List.range k).map
        (fun j => (a + j + 1, cfg.maxAttempts, delayAt cfg (a + j + 1), url))
      ++ tail.filterMap reconOf := by
  intro k
  induction k with
  | zero => intro a; simp [segBlock, reconOf]
  | succ k ih =>
    intro a
    simp only [segBlock, List.filterMap_append, List.filterMap_cons, reconOf,
      List.range_succ_eq_map, List.map_cons, List.map_map, ih (a + 1)]
    simp only [List.cons_append, List.nil_append, List.append_assoc,
      List.filterMap_nil]
    have h0 : a + 0 + 1 = a + 1 := by omega
    rw [h0]
    congr 2
    apply List.map_congr_left
    intro j _
    have h1 : a + 1 + j + 1 = a + (j + 1) + 1 := by omega
    simp [Function.comp, Nat.succ_eq_add_one, h1]

/-- The emitted backoff delays are monotone in the attempt number when
`backoffFactor ≥ 1` and `initialDelay ≥ 0`. -/
theorem delayAt_mono (cfg : ReconnectConfig) (hd : 0 ≤ cfg.initialDelay)
    (hb : 1 ≤ cfg.backoffFactor) {i j : ℕ} (hij : i ≤ j) :
    delayAt cfg i ≤ delayAt cfg j := by
  unfold delayAt jsRound
  apply Int.floor_le_floor
  apply add_le_add_right
  apply min_le_min _ le_rfl
  apply mul_le_mul_of_nonneg_left _ hd
  exact pow_le_pow_right₀ hb (by omega)

/-- Configuration used to exhibit the reconnect-event count. -/
def cfgTwoAttempts : ReconnectConfig :=
  { initialDelay := 100, maxDelay := 1000, backoffFactor := 2,
    maxAttempts := 2, maxServiceCycles := 2 }

/-- C1 counterexample: with a single endpoint and `maxAttemptsPerEndpoint
= 2`, two consecutive failed open attempts make the manager give up having
emitted only ONE `reconnecting` event — not two, as the claim states. -/
theorem singleEndpoint_two_failures_one_reconnecting :
    (runAllFail cfgTwoAttempts 5 (connect (initState ["ws://a"] []))).2.1 = 2 ∧
    (runAllFail cfgTwoAttempts 5 (connect (initState ["ws://a"] []))).2.2 = true ∧
    (runAllFail cfgTwoAttempts 5 (connect (initState ["ws://a"] []))).1.countP isReconEv = 1 ∧
    ¬ ((runAllFail cfgTwoAttempts 5 (connect (initState ["ws://a"] []))).1.countP isReconEv = 2) := by
  refine ⟨by decide, by decide, by decide, by decide⟩

/-- C1 (amended): on a single-endpoint configuration with
`maxAttemptsPerEndpoint = n ≥ 1`, `n` consecutive failed open attempts
emit exactly `n - 1` `reconnecting` events, the `k`-th carrying
`delay = round(min(maxDelay, initialDelay * backoffFactor^(k-1)))`; the
delays are non-decreasing (given `initialDelay ≥ 0`, `backoffFactor ≥ 1`),
the manager gives up at the `n`-th failure, and — since the result is the
same for every amount `f` of extra fuel — no further open attempt occurs
after the `n`-th failure. -/
theorem singleEndpoint_allFail_trace (cfg : ReconnectConfig) (u : String)
    (qp : Params) (n f : ℕ) (hn : 1 ≤ n) (hA : cfg.maxAttempts = n)
    (hd : 0 ≤ cfg.initialDelay) (hb : 1 ≤ cfg.backoffFactor) :
    ((runAllFail cfg (n + f) (connect (initState [u] qp))).1.filterMap reconOf =
      (List.range (n - 1)).map
        (fun k => (k + 1, n, delayAt cfg (k + 1), buildUrl qp u))) ∧
    (runAllFail cfg (n + f) (connect (initState [u] qp))).2.1 = n ∧
    (runAllFail cfg (n + f) (connect (initState [u] qp))).2.2 = true ∧
    ((runAllFail cfg (n + f) (connect (initState [u] qp))).1.filterMap reconOf).Pairwise
      (fun p q => p.2.2.1 ≤ q.2.2.1) := by
  rw [connect_initState]
  have hcant : ¬ (1 < ([u] : List String).length ∧ 0 < cfg.maxServiceCycles) := by
    simp
  have hfuel : n + f = (n - 1) + 1 + f := by omega
  rw [hfuel, seg_stop cfg [u] qp 0 0 hcant (n - 1) f 0 (by omega)]
  simp only [segBlock_filterMap_reconOf, List.filterMap_nil, List.append_nil,
    List.getD, List.getD_cons_zero, hA]
  refine ⟨?_, by omega, by trivial, ?_⟩
  · apply List.map_congr_left
    intro j _
    simp
  · rw [List.pairwise_map]
    apply List.Pairwise.imp ?_ (List.pairwise_lt_range (n - 1))
    intro a b hab
    simpa using delayAt_mono cfg hd hb (by omega : 0 + a + 1 ≤ 0 + b + 1)

/-- Configuration used to instantiate the single-endpoint trace theorem. -/
def cfgThreeAttempts : ReconnectConfig :=
  { initialDelay := 100, maxDelay := 1000, backoffFactor := 2,
    maxAttempts := 3, maxServiceCycles := 2 }

theorem singleEndpoint_allFail_trace_inst :
    ((runAllFail cfgThreeAttempts (3 + 2) (connect (initState ["ws://a"] []))).1.filterMap reconOf =
      (List.range (3 - 1)).map
        (fun k => (k + 1, 3, delayAt cfgThreeAttempts (k + 1), buildUrl [] "ws://a"))) ∧
    (runAllFail cfgThreeAttempts (3 + 2) (connect (initState ["ws://a"] []))).2.1 = 3 ∧
    (runAllFail cfgThreeAttempts (3 + 2) (connect (initState ["ws://a"] []))).2.2 = true ∧
    ((runAllFail cfgThreeAttempts (3 + 2) (connect (initState ["ws://a"] []))).1.filterMap reconOf).Pairwise
      (fun p q => p.2.2.1 ≤ q.2.2.1) :=
  singleEndpoint_allFail_trace cfgThreeAttempts "ws://a" [] 3 2 (by norm_num) rfl
    (by norm_num [cfgThreeAttempts]) (by norm_num [cfgThreeAttempts])

/-- Number of `serviceSwitched` events still to come when all attempts
fail, starting a fresh endpoint at index `idx` with `c` completed cycles
(`C` = `maxServiceCycles`, `E` = number of endpoints). -/
def switchesLeft (C E c idx : ℕ) : ℕ :=
  if c < C then (C - c) * E - idx else 0

theorem switchesLeft_pos (C E c idx : ℕ) (hidx : idx < E) (hc : c < C) :
    0 < switchesLeft C E c idx := by
  have h1 : E ≤ (C - c) * E := Nat.le_mul_of_pos_left E (by omega)
  simp only [switchesLeft, if_pos hc]
  omega

theorem switchesLeft_step (C E c idx m : ℕ) (hidx : idx < E)
    (hc : c < C) (h : switchesLeft C E c idx = m + 1) :
    switchesLeft C E (if (idx + 1) % E = 0 then c + 1 else c) ((idx + 1) % E) = m := by
  simp only [switchesLeft, if_pos hc] at h
  rcases Nat.lt_or_ge (idx + 1) E with hlt | hge
  · rw [Nat.mod_eq_of_lt hlt]
    have hne : ¬ (idx + 1 = 0) := by omega
    rw [if_neg hne]
    have h1 : E ≤ (C - c) * E := Nat.le_mul_of_pos_left E (by omega)
    simp only [switchesLeft, if_pos hc]
    omega
  · have heq : idx + 1 = E := by omega
    have hmod : (idx + 1) % E = 0 := by rw [heq]; exact Nat.mod_self E
    rw [hmod, if_pos rfl]
    have e1 : (C - c) * E = (C - (c + 1)) * E + E := by
      have h2 : C - c = (C - (c + 1)) + 1 := by omega
      rw [h2, Nat.succ_mul]
    simp only [switchesLeft]
    by_cases hc1 : c + 1 < C
    · rw [if_pos hc1]
      omega
    · rw [if_neg hc1]
      have e2 : (C - (c + 1)) * E = 0 := by
        have h3 : C - (c + 1) = 0 := by omega
        rw [h3]
        ring
      omega

/-- The all-failures run from the start of any endpoint: with `m` switches
left it performs exactly `maxAttempts * (m + 1)` further failed attempts,
emits exactly `m` `serviceSwitched` and `(maxAttempts - 1) * (m + 1)`
`reconnecting` events, then gives up. -/
theorem allFail_from_segment (cfg : ReconnectConfig) (svcs : List String)
    (qp : Params) (hE : 2 ≤ svcs.length) (hA : 1 ≤ cfg.maxAttempts) :
    ∀ m idx c f, idx < svcs.length →
      switchesLeft cfg.maxServiceCycles svcs.length c idx = m →
      (runAllFail cfg (cfg.maxAttempts * (m + 1) + f) (mkS svcs qp idx 0 c)).2.1 =
          cfg.maxAttempts * (m + 1) ∧
      (runAllFail cfg (cfg.maxAttempts * (m + 1) + f) (mkS svcs qp idx 0 c)).2.2 = true ∧
      (runAllFail cfg (cfg.maxAttempts * (m + 1) + f)
          (mkS svcs qp idx 0 c)).1.countP isSwitchedEv = m ∧
      (runAllFail cfg (cfg.maxAttempts * (m + 1) + f)
          (mkS svcs qp idx 0 c)).1.countP isReconEv = (cfg.maxAttempts - 1) * (m + 1) := by
  intro m
  induction m with
  | zero =>
    intro idx c f hidx hm
    have hnc : ¬ (c < cfg.maxServiceCycles) := by
      intro hc
      have := switchesLeft_pos cfg.maxServiceCycles svcs.length c idx hidx hc
      omega
    have hcant : ¬ (1 < svcs.length ∧ c < cfg.maxServiceCycles) := fun h => hnc h.2
    have hfuel : cfg.maxAttempts * (0 + 1) + f = (cfg.maxAttempts - 1) + 1 + f := by omega
    rw [hfuel, seg_stop cfg svcs qp idx c hcant (cfg.maxAttempts - 1) f 0 (by omega)]
    simp only [segBlock_countP_switched, segBlock_countP_recon, List.countP_nil]
    refine ⟨by omega, trivial, trivial, by omega⟩
  | succ m ih =>
    intro idx c f hidx hm
    have hc : c < cfg.maxServiceCycles := by
      by_contra hnc
      simp [switchesLeft, hnc] at hm
    have hmulsucc : cfg.maxAttempts * (m + 1 + 1) = cfg.maxAttempts * (m + 1) + cfg.maxAttempts := by
      ring
    have hfuel : cfg.maxAttempts * (m + 1 + 1) + f =
        (cfg.maxAttempts - 1) + 1 + (cfg.maxAttempts * (m + 1) + f) := by omega
    rw [hfuel, seg_go cfg svcs qp idx c (by omega) hc (cfg.maxAttempts - 1)
      (cfg.maxAttempts * (m + 1) + f) 0 (by omega)]
    have hidx2 : (idx + 1) % svcs.length < svcs.length := Nat.mod_lt _ (by omega)
    have hm2 : switchesLeft cfg.maxServiceCycles svcs.length
        (if (idx + 1) % svcs.length = 0 then c + 1 else c) ((idx + 1) % svcs.length) = m :=
      switchesLeft_step cfg.maxServiceCycles svcs.length c idx m hidx hc hm
    obtain ⟨hcount, hgave, hsw, hrec⟩ :=
      ih ((idx + 1) % svcs.length) (if (idx + 1) % svcs.length = 0 then c + 1 else c)
        f hidx2 hm2
    simp only [List.countP_append, segBlock_countP_switched, segBlock_countP_recon,
      List.countP_cons, List.countP_nil, isSwitchedEv, isReconEv]
    rw [hcount, hsw, hrec]
    have hsub : (cfg.maxAttempts - 1) * (m + 1 + 1) =
        (cfg.maxAttempts - 1) + (cfg.maxAttempts - 1) * (m + 1) := by ring
    refine ⟨by omega, hgave, ?_, ?_⟩
    · simp only [if_true]
      omega
    · simp only [Bool.false_eq_true, if_false]
      omega

/-- Configuration with one attempt per endpoint and one endpoint cycle. -/
def cfgOneAttemptOneCycle : ReconnectConfig :=
  { initialDelay := 100, maxDelay := 1000, backoffFactor := 2,
    maxAttempts := 1, maxServiceCycles := 1 }

/-- C2 counterexample: with `E = 2`, `A = 1`, `C = 1` and every attempt
failing, the manager gives up after 3 failed attempts (not `E*A*C = 2`)
having emitted `serviceSwitched` twice (not `E*C - 1 = 1`). -/
theorem multiEndpoint_exhaustion_counts_mismatch :
    (runAllFail cfgOneAttemptOneCycle 9 (connect (initState ["ws://a", "ws://b"] []))).2.1 = 3 ∧
    (runAllFail cfgOneAttemptOneCycle 9 (connect (initState ["ws://a", "ws://b"] []))).2.2 = true ∧
    (runAllFail cfgOneAttemptOneCycle 9
        (connect (initState ["ws://a", "ws://b"] []))).1.countP isSwitchedEv = 2 ∧
    ¬ ((runAllFail cfgOneAttemptOneCycle 9
        (connect (initState ["ws://a", "ws://b"] []))).2.1 = 2 * 1 * 1) ∧
    ¬ ((runAllFail cfgOneAttemptOneCycle 9
        (connect (initState ["ws://a", "ws://b"] []))).1.countP isSwitchedEv = 2 * 1 - 1) := by
  refine ⟨by decide, by decide, by decide, by decide, by decide⟩

/-- C2 (amended): for `E ≥ 2` endpoints, `maxAttemptsPerEndpoint = A ≥ 1`
and `maxEndpointCycles = C`, when every open attempt fails the manager
gives up after exactly `A * (E * C + 1)` cumulative failed attempts,
having emitted `serviceSwitched` exactly `E * C` times; the result is the
same for every amount `f` of extra fuel, so no attempt occurs after
exhaustion. -/
theorem multiEndpoint_allFail_exhaustion (cfg : ReconnectConfig)
    (svcs : List String) (qp : Params) (E A C f : ℕ) (hE : svcs.length = E)
    (hE2 : 2 ≤ E) (hA : cfg.maxAttempts = A) (hA1 : 1 ≤ A)
    (hC : cfg.maxServiceCycles = C) :
    (runAllFail cfg (A * (E * C + 1) + f) (connect (initState svcs qp))).2.1 =
        A * (E * C + 1) ∧
    (runAllFail cfg (A * (E * C + 1) + f) (connect (initState svcs qp))).2.2 = true ∧
    (runAllFail cfg (A * (E * C + 1) + f)
        (connect (initState svcs qp))).1.countP isSwitchedEv = E * C := by
  subst hE hA hC
  rw [connect_initState]
  have hm : switchesLeft cfg.maxServiceCycles svcs.length 0 0 =
      svcs.length * cfg.maxServiceCycles := by
    simp only [switchesLeft]
    by_cases h : 0 < cfg.maxServiceCycles
    · rw [if_pos h]
      simp [Nat.mul_comm]
    · rw [if_neg h]
      have h0 : cfg.maxServiceCycles = 0 := by omega
      simp [h0]
  obtain ⟨h1, h2, h3, _⟩ := allFail_from_segment cfg svcs qp hE2 hA1
    (svcs.length * cfg.maxServiceCycles) 0 0 f (by omega) hm
  exact ⟨h1, h2, h3⟩

theorem multiEndpoint_allFail_exhaustion_inst :
    (runAllFail cfgOneAttemptOneCycle (1 * (2 * 1 + 1) + 0)
        (connect (initState ["ws://a", "ws://b"] []))).2.1 = 1 * (2 * 1 + 1) ∧
    (runAllFail cfgOneAttemptOneCycle (1 * (2 * 1 + 1) + 0)
        (connect (initState ["ws://a", "ws://b"] []))).2.2 = true ∧
    (runAllFail cfgOneAttemptOneCycle (1 * (2 * 1 + 1) + 0)
        (connect (initState ["ws://a", "ws://b"] []))).1.countP isSwitchedEv = 2 * 1 :=
  multiEndpoint_allFail_exhaustion cfgOneAttemptOneCycle ["ws://a", "ws://b"] []
    2 1 1 0 rfl (by norm_num) rfl (by norm_num) rfl

/-!
## Message router (`src/router/WebSocketRouter.ts`)

`JSON.parse` and the Zod schema engine are boundary capabilities
(`spec` §1, §6): decoding is an arbitrary partial function from raw
strings to structured values, and a schema's `safeParse` is an arbitrary
partial function from structured values to validated (possibly
transformed) values.  Handlers may be synchronous or asynchronous and may
throw/reject; a handler run is modelled by its outcome
(`Except` an error message).  `Promise.allSettled` awaits every matched
invocation, so `route` is modelled as the total function collecting, in
registration order, which handlers ran and which `"error"` events were
emitted.
-/

/-- Structured data produced by `JSON.parse`. -/
inductive Json where
  | null
  | bool (b : Bool)
  | num (q : ℚ)
  | str (s : String)
  | arr (elems : List Json)
  | obj (fields : List (String × Json))

/-- The context object passed to a matched handler
(`src/router/types.ts`, `HandlerContext`). -/
structure HandlerCtx where
  data : Json
  rawData : String
  send : Json → Bool
  connection : ConnectionInfo

/-- A `HandlerRegistration`: the schema capability (`safeParse`: `none` =
rejection, `some v` = success with validated data `v`) paired with the
handler (outcome `Except`: `.error` = the handler threw or rejected). -/
structure Registration where
  safeParse : Json → Option Json
  handler : HandlerCtx → Except String Unit

/-- Observable router activity during one `route` call: which handler
(by registration index) was invoked, and which `"error"` events were
emitted (`HandlerError.error` message and `rawData`; the `Date.now()`
timestamp is wall-clock and omitted). -/
inductive REvent where
  | invoked (idx : ℕ)
  | errorEvent (errMsg : String) (rawData : String)
deriving DecidableEq

/-- The message produced for a JSON parse failure (line 61). -/
def parseFailMsg : String := "Failed to parse WebSocket message as JSON"

/-- `invokeHandler` (lines 88-105): run the handler with its context; a
throw is caught and emitted as an `"error"` event, never propagated. -/
def invokeHandler (i : ℕ) (reg : Registration) (data : Json) (raw : String)
    (sendFn : Json → Bool) (ci : ConnectionInfo) : List REvent :=
  match reg.handler { data := data, rawData := raw, send := sendFn, connection := ci } with
  | .ok _ => [.invoked i]
  | .error e => [.invoked i, .errorEvent e raw]

/-- The matching loop of `route` (lines 68-86): validate the decoded value
against every registration in order and invoke every match
(`Promise.allSettled` awaits them all; completion order across handlers is
unspecified, and the events are recorded in registration order). -/
def routeAux (v : Json) (raw : String) (sendFn : Json → Bool)
    (ci : ConnectionInfo) : ℕ → List Registration → List REvent
  | _, [] => []
  | i, reg :: rest =>
    (match reg.safeParse v with
     | some data => invokeHandler i reg data raw sendFn ci
     | none => []) ++ routeAux v raw sendFn ci (i + 1) rest

/-- `route` (lines 50-86): decode the raw payload (via the `parse`
capability); on failure emit exactly one `"error"` event and stop, else
fan out to every registration whose schema accepts the value. -/
def route (parse : String → Option Json) (regs : List Registration)
    (raw : String) (sendFn : Json → Bool) (ci : ConnectionInfo) : List REvent :=
  match parse raw with
  | none => [.errorEvent parseFailMsg raw]
  | some v => routeAux v raw sendFn ci 0 regs

/-- Registration index of an `invoked` record. -/
def invokedIdx : REvent → Option ℕ
  | .invoked i => some i
  | _ => none

/-- Is this an emitted `"error"` event? -/
def isErrorEv : REvent → Bool
  | .errorEvent _ _ => true
  | _ => false

/-- Does this registration match the decoded value and then throw? -/
def throwsOn (reg : Registration) (v : Json) (raw : String)
    (sendFn : Json → Bool) (ci : ConnectionInfo) : Bool :=
  match reg.safeParse v with
  | none => false
  | some data =>
    match reg.handler { data := data, rawData := raw, send := sendFn, connection := ci } with
    | .ok _ => false
    | .error _ => true

theorem routeAux_filterMap_invoked (v : Json) (raw : String)
    (sendFn : Json → Bool) (ci : ConnectionInfo) :
    ∀ regs i, (routeAux v raw sendFn ci i regs).filterMap invokedIdx =
      ((List.enumFrom i regs).filter
        (fun p => (p.2.safeParse v).isSome)).map Prod.fst := by
  intro regs
  induction regs with
  | nil => intro i; simp [routeAux]
  | cons reg rest ih =>
    intro i
    rw [List.enumFrom_cons]
    cases hp : reg.safeParse v with
    | none =>
      simp [routeAux, hp, List.filter_cons, ih (i + 1)]
    | some data =>
      cases hh : reg.handler { data := data, rawData := raw, send := sendFn, connection := ci } with
      | ok u =>
        simp [routeAux, hp, invokeHandler, hh, List.filter_cons, invokedIdx, ih (i + 1)]
      | error e =>
        simp [routeAux, hp, invokeHandler, hh, List.filter_cons, invokedIdx, ih (i + 1)]

theorem routeAux_countP_error (v : Json) (raw : String)
    (sendFn : Json → Bool) (ci : ConnectionInfo) :
    ∀ regs i, (routeAux v raw sendFn ci i regs).countP isErrorEv =
      regs.countP (fun r => throwsOn r v raw sendFn ci) := by
  intro regs
  induction regs with
  | nil => intro i; simp [routeAux]
  | cons reg rest ih =>
    intro i
    cases hp : reg.safeParse v with
    | none =>
      simp [routeAux, hp, List.countP_cons, throwsOn, ih (i + 1)]
    | some data =>
      cases hh : reg.handler { data := data, rawData := raw, send := sendFn, connection := ci } with
      | ok u =>
        simp [routeAux, hp, invokeHandler, hh, List.countP_cons, throwsOn,
          isErrorEv, ih (i + 1)]
      | error e =>
        simp [routeAux, hp, invokeHandler, hh, List.countP_cons, throwsOn,
          isErrorEv, ih (i + 1)]

theorem enumFrom_filter_map_fst_nodup (v : Json) :
    ∀ (regs : List Registration) (i : ℕ),
    (((List.enumFrom i regs).filter
      (fun p => (p.2.safeParse v).isSome)).map Prod.fst).Nodup := by
  intro regs i
  have hsub : ((List.enumFrom i regs).filter
      (fun p => (p.2.safeParse v).isSome)).map Prod.fst |>.Sublist
        ((List.enumFrom i regs).map Prod.fst) :=
    (List.filter_sublist _).map Prod.fst
  apply List.Nodup.sublist hsub
  rw [List.enumFrom_map_fst]
  exact List.nodup_range' i regs.length

/-- C3: on a decodable payload, `route` invokes exactly the registrations
whose schema validation succeeds — in registration order, each exactly
once (the expected index list is duplicate-free) and independently of any
handler throwing — and emits exactly one `dispatchError` (`"error"`) event
per matched handler that throws; `route` is a total function, so no
handler exception propagates out of it. -/
theorem route_dispatch_isolation (parse : String → Option Json)
    (regs : List Registration) (raw : String) (sendFn : Json → Bool)
    (ci : ConnectionInfo) (v : Json) (h : parse raw = some v) :
    (route parse regs raw sendFn ci).filterMap invokedIdx =
      ((regs.enum).filter (fun p => (p.2.safeParse v).isSome)).map Prod.fst ∧
    (((regs.enum).filter (fun p => (p.2.safeParse v).isSome)).map Prod.fst).Nodup ∧
    (route parse regs raw sendFn ci).countP isErrorEv =
      regs.countP (fun r => throwsOn r v raw sendFn ci) := by
  unfold route
  rw [h]
  exact ⟨routeAux_filterMap_invoked v raw sendFn ci regs 0,
    enumFrom_filter_map_fst_nodup v regs 0,
    routeAux_countP_error v raw sendFn ci regs 0⟩

/-- A registration whose schema accepts everything and whose handler
completes normally. -/
def matchOkReg : Registration :=
  { safeParse := fun v => some v, handler := fun _ => .ok () }

/-- A registration whose schema accepts everything and whose handler
throws. -/
def matchThrowReg : Registration :=
  { safeParse := fun v => some v, handler := fun _ => .error "boom" }

/-- A registration whose schema rejects everything. -/
def rejectReg : Registration :=
  { safeParse := fun _ => none, handler := fun _ => .ok () }

/-- Concrete snapshot and send capability for instantiations. -/
def ciInst : ConnectionInfo := getConnectionInfo (initState ["ws://a"] [])

theorem route_dispatch_isolation_inst :
    (route (fun _ => some .null) [matchOkReg, matchThrowReg, rejectReg] "x"
        (fun _ => false) ciInst).filterMap invokedIdx =
      ((([matchOkReg, matchThrowReg, rejectReg] : List Registration).enum).filter
        (fun p => (p.2.safeParse .null).isSome)).map Prod.fst ∧
    (((([matchOkReg, matchThrowReg, rejectReg] : List Registration).enum).filter
        (fun p => (p.2.safeParse .null).isSome)).map Prod.fst).Nodup ∧
    (route (fun _ => some .null) [matchOkReg, matchThrowReg, rejectReg] "x"
        (fun _ => false) ciInst).countP isErrorEv =
      ([matchOkReg, matchThrowReg, rejectReg] : List Registration).countP
        (fun r => throwsOn r .null "x" (fun _ => false) ciInst) :=
  route_dispatch_isolation (fun _ => some .null)
    [matchOkReg, matchThrowReg, rejectReg] "x" (fun _ => false) ciInst .null rfl

/-- C6: on a payload that fails to decode, `route` invokes zero handlers
and emits exactly one `dispatchError` (`"error"`) event carrying the
decode-failure message and the raw payload, regardless of how many
registrations exist. -/
theorem route_decodeFailure (parse : String → Option Json)
    (regs : List Registration) (raw : String) (sendFn : Json → Bool)
    (ci : ConnectionInfo) (h : parse raw = none) :
    route parse regs raw sendFn ci = [.errorEvent parseFailMsg raw] ∧
    (route parse regs raw sendFn ci).filterMap invokedIdx = [] ∧
    (route parse regs raw sendFn ci).countP isErrorEv = 1 := by
  unfold route
  rw [h]
  exact ⟨rfl, rfl, rfl⟩

theorem route_decodeFailure_inst :
    route (fun _ => none) [matchOkReg, matchThrowReg, rejectReg] "not json"
        (fun _ => false) ciInst = [.errorEvent parseFailMsg "not json"] ∧
    (route (fun _ => none) [matchOkReg, matchThrowReg, rejectReg] "not json"
        (fun _ => false) ciInst).filterMap invokedIdx = [] ∧
    (route (fun _ => none) [matchOkReg, matchThrowReg, rejectReg] "not json"
        (fun _ => false) ciInst).countP isErrorEv = 1 :=
  route_decodeFailure (fun _ => none) [matchOkReg, matchThrowReg, rejectReg]
    "not json" (fun _ => false) ciInst rfl

/-!
## Query-parameter overlay (`updateParams`)
-/

theorem getParam_objSet_self : ∀ (ps : Params) (k : String) (v : Scalar),
    getParam (objSet ps k v) k = some v := by
  intro ps k v
  induction ps with
  | nil => simp [objSet, getParam]
  | cons p ps ih =>
    by_cases h : p.1 = k
    · simp [objSet, h, getParam]
    · simp [objSet, h, getParam, ih]

theorem getParam_objSet_other : ∀ (ps : Params) (k k' : String) (v : Scalar),
    k' ≠ k → getParam (objSet ps k v) k' = getParam ps k' := by
  intro ps k k' v hne
  induction ps with
  | nil =>
    simp only [objSet, getParam]
    rw [if_neg (fun h => hne h.symm)]
  | cons p ps ih =>
    obtain ⟨k0, v0⟩ := p
    by_cases h : k0 = k
    · simp only [objSet, if_pos h, getParam]
      rw [if_neg (by rw [h]; exact fun hh => hne hh.symm),
        if_neg (by rw [h]; exact fun hh => hne hh.symm)]
    · simp only [objSet, if_neg h, getParam]
      by_cases h2 : k0 = k'
      · rw [if_pos h2, if_pos h2]
      · rw [if_neg h2, if_neg h2, ih]

theorem getParam_eq_none_of_not_mem : ∀ (ps : Params) (k : String),
    k ∉ ps.map Prod.fst → getParam ps k = none := by
  intro ps k h
  induction ps with
  | nil => rfl
  | cons p ps ih =>
    simp only [List.map_cons, List.mem_cons] at h
    push_neg at h
    simp only [getParam]
    rw [if_neg (fun hh => h.1 hh.symm)]
    exact ih h.2

theorem getParam_mergeParams : ∀ (qs ps : Params) (k : String),
    (qs.map Prod.fst).Nodup →
    getParam (mergeParams ps qs) k =
      (match getParam qs k with
       | some v => some v
       | none => getParam ps k) := by
  intro qs
  induction qs with
  | nil => intro ps k _; simp [mergeParams, getParam]
  | cons q qs ih =>
    intro ps k hnd
    obtain ⟨k0, v0⟩ := q
    simp only [List.map_cons, List.nodup_cons] at hnd
    have hstep : mergeParams ps ((k0, v0) :: qs) = mergeParams (objSet ps k0 v0) qs := rfl
    rw [hstep, ih (objSet ps k0 v0) k hnd.2]
    by_cases hk : k0 = k
    · subst hk
      have h1 : getParam qs k0 = none := getParam_eq_none_of_not_mem qs k0 hnd.1
      have h2 : getParam ((k0, v0) :: qs) k0 = some v0 := by
        simp [getParam]
      simp only [h1, h2]
      exact getParam_objSet_self ps k0 v0
    · have h2 : getParam ((k0, v0) :: qs) k = getParam qs k := by
        simp only [getParam]
        rw [if_neg hk]
      rw [h2]
      cases hq : getParam qs k with
      | some v => rfl
      | none => rw [getParam_objSet_other ps k0 k v0 (fun h => hk h.symm)]

theorem updateParams_proj (s : ConnState) (ps : Params) :
    (updateParams s ps).queryParams = mergeParams s.queryParams ps ∧
    (updateParams s ps).reconnectAttempts = 0 ∧
    (updateParams s ps).serviceCycles = 0 ∧
    (updateParams s ps).serviceIndex = s.serviceIndex := by
  simp only [updateParams, cleanup, run]
  split <;> exact ⟨rfl, rfl, rfl, rfl⟩

/-- Modelled from the spec's words (claim C4): the effective value at key
`k` after key-wise merging a sequence of supplied maps into a base
overlay, later values winning per key. -/
def overlayGet (k : String) : Option Scalar → List Params → Option Scalar
  | base, [] => base
  | base, u :: us =>
    overlayGet k
      (match getParam u k with
       | some v => some v
       | none => base) us

/-- C4: after any non-empty sequence of `updateParams` calls (each carrying
a unique-keyed JS object), the effective overlay at every key is the
key-wise merge of all supplied maps with later values winning; every call
resets `reconnectAttempts` and `serviceCycles` to 0 and leaves
`serviceIndex` unchanged. -/
theorem updateParams_overlay_resets (s : ConnState) (us : List Params) (k : String)
    (hnd : ∀ u ∈ us, (u.map Prod.fst).Nodup) (hne : us ≠ []) :
    getParam ((us.foldl updateParams s).queryParams) k =
      overlayGet k (getParam s.queryParams k) us ∧
    (us.foldl updateParams s).reconnectAttempts = 0 ∧
    (us.foldl updateParams s).serviceCycles = 0 ∧
    (us.foldl updateParams s).serviceIndex = s.serviceIndex := by
  induction us generalizing s with
  | nil => exact absurd rfl hne
  | cons u us ih =>
    obtain ⟨hq, ha, hc, hi⟩ := updateParams_proj s u
    have hqk : getParam ((updateParams s u).queryParams) k =
        (match getParam u k with
         | some v => some v
         | none => getParam s.queryParams k) := by
      rw [hq]
      exact getParam_mergeParams u s.queryParams k (hnd u (by simp))
    cases us with
    | nil =>
      simp only [List.foldl_cons, List.foldl_nil, overlayGet]
      exact ⟨hqk, ha, hc, hi⟩
    | cons u2 us2 =>
      have hnd2 : ∀ w ∈ u2 :: us2, (w.map Prod.fst).Nodup := by
        intro w hw
        exact hnd w (List.mem_cons_of_mem u hw)
      obtain ⟨ih1, ih2, ih3, ih4⟩ := ih (updateParams s u) hnd2 (by simp)
      simp only [List.foldl_cons] at ih1 ih2 ih3 ih4 ⊢
      refine ⟨?_, ih2, ih3, by rw [ih4, hi]⟩
      rw [ih1, hqk]
      rfl

theorem updateParams_overlay_resets_inst :
    getParam (([[("a", Scalar.n 1)], [("b", Scalar.n 2)]].foldl updateParams
        (initState ["ws://a"] [])).queryParams) "a" =
      overlayGet "a" (getParam (initState ["ws://a"] []).queryParams "a")
        [[("a", Scalar.n 1)], [("b", Scalar.n 2)]] ∧
    ([[("a", Scalar.n 1)], [("b", Scalar.n 2)]].foldl updateParams
        (initState ["ws://a"] [])).reconnectAttempts = 0 ∧
    ([[("a", Scalar.n 1)], [("b", Scalar.n 2)]].foldl updateParams
        (initState ["ws://a"] [])).serviceCycles = 0 ∧
    ([[("a", Scalar.n 1)], [("b", Scalar.n 2)]].foldl updateParams
        (initState ["ws://a"] [])).serviceIndex = (initState ["ws://a"] []).serviceIndex :=
  updateParams_overlay_resets (initState ["ws://a"] [])
    [[("a", Scalar.n 1)], [("b", Scalar.n 2)]] "a"
    (by intro u hu; simp only [List.mem_cons, List.not_mem_nil, or_false] at hu
        rcases hu with h | h <;> subst h <;> simp)
    (by simp)

/-!
## `close`, `send`, the open handler, and the facade message path
-/

theorem close_shouldReconnect (s : ConnState) : (close s).shouldReconnect = false := by
  cases hws : s.ws <;> simp [close, hws]

theorem close_pingTimer (s : ConnState) : (close s).pingTimer = false := by
  cases hws : s.ws <;> simp [close, hws]

theorem close_reconnectTimer (s : ConnState) : (close s).reconnectTimer = false := by
  cases hws : s.ws <;> simp [close, hws]

/-- The socket `close` handler never reschedules once `shouldReconnect` is
false (lines 208-210). -/
theorem onCloseEvent_not_wanted (cfg : ReconnectConfig) (s : ConnState)
    (code : ℤ) (reason : String) (h : s.shouldReconnect = false) :
    onCloseEvent cfg s code reason =
      ({ s with isConnecting := false, pingTimer := false, ws := some .closed },
       [Event.closed code reason], false) := by
  simp [onCloseEvent, h]

/-- C5: `close` is idempotent (a second call is a no-op); after `close` no
heartbeat or reconnect timer is live; `close` before any `connect` changes
nothing observable (same snapshot, still no socket handle, no timers); and
a transport `close` event delivered after `close` — while
`desiredConnected` (`shouldReconnect`) remains false — only emits the
`closed` event: it schedules no reconnect timer and triggers no further
open attempt. -/
theorem close_idempotent_no_timers (cfg : ReconnectConfig) (svcs : List String)
    (qp : Params) (s : ConnState) (code : ℤ) (reason : String) :
    close (close s) = close s ∧
    (close s).pingTimer = false ∧
    (close s).reconnectTimer = false ∧
    getConnectionInfo (close (initState svcs qp)) = getConnectionInfo (initState svcs qp) ∧
    (close (initState svcs qp)).ws = none ∧
    (onCloseEvent cfg (close s) code reason).2.2 = false ∧
    (onCloseEvent cfg (close s) code reason).1.reconnectTimer = false ∧
    (onCloseEvent cfg (close s) code reason).1.pingTimer = false ∧
    (onCloseEvent cfg (close s) code reason).2.1 = [Event.closed code reason] := by
  have hocl := onCloseEvent_not_wanted cfg (close s) code reason (close_shouldReconnect s)
  refine ⟨?_, close_pingTimer s, close_reconnectTimer s, rfl, rfl, ?_, ?_, ?_, ?_⟩
  · cases hws : s.ws with
    | none => simp [close, hws]
    | some st => cases st <;> simp [close, hws, wsClose]
  · rw [hocl]
  · rw [hocl]
    exact close_reconnectTimer s
  · rw [hocl]
  · rw [hocl]

theorem close_idempotent_no_timers_inst :
    close (close (initState ["ws://a"] [])) = close (initState ["ws://a"] []) ∧
    (close (initState ["ws://a"] [])).pingTimer = false ∧
    (close (initState ["ws://a"] [])).reconnectTimer = false ∧
    getConnectionInfo (close (initState ["ws://a"] [])) =
      getConnectionInfo (initState ["ws://a"] []) ∧
    (close (initState ["ws://a"] [])).ws = none ∧
    (onCloseEvent cfgThreeAttempts (close (initState ["ws://a"] [])) 1000 "bye").2.2 = false ∧
    (onCloseEvent cfgThreeAttempts (close (initState ["ws://a"] [])) 1000 "bye").1.reconnectTimer = false ∧
    (onCloseEvent cfgThreeAttempts (close (initState ["ws://a"] [])) 1000 "bye").1.pingTimer = false ∧
    (onCloseEvent cfgThreeAttempts (close (initState ["ws://a"] [])) 1000 "bye").2.1 =
      [Event.closed 1000 "bye"] :=
  close_idempotent_no_timers cfgThreeAttempts ["ws://a"] [] (initState ["ws://a"] [])
    1000 "bye"

/-- C7: `send` returns `true` exactly when the socket handle exists, is in
the OPEN state, and the transport accepted the write; with no handle, or a
handle in any non-OPEN state, it returns `false`; a transport-level send
failure (the `catch` branch) is reported as `false`, and `send` is a total
`Bool`-valued function, so no exception is raised. -/
theorem send_spec (s : ConnState) (transportSend : String → Bool) (data : String) :
    (send s transportSend data = true ↔
      (s.ws = some .opened ∧ transportSend data = true)) ∧
    (s.ws = none → send s transportSend data = false) ∧
    (∀ st, s.ws = some st → st ≠ .opened → send s transportSend data = false) := by
  refine ⟨?_, ?_, ?_⟩
  · cases hws : s.ws with
    | none => simp [send, hws]
    | some st => cases st <;> cases htr : transportSend data <;> simp [send, hws, htr]
  · intro h
    simp [send, h]
  · intro st hws hne
    cases st
    case opened => exact absurd rfl hne
    all_goals simp [send, hws]

theorem send_spec_inst :
    (send (onOpen (initState ["ws://a"] [])).1 (fun _ => true) "hello" = true ↔
      ((onOpen (initState ["ws://a"] [])).1.ws = some .opened ∧
        (fun _ : String => true) "hello" = true)) ∧
    ((onOpen (initState ["ws://a"] [])).1.ws = none →
      send (onOpen (initState ["ws://a"] [])).1 (fun _ => true) "hello" = false) ∧
    (∀ st, (onOpen (initState ["ws://a"] [])).1.ws = some st → st ≠ .opened →
      send (onOpen (initState ["ws://a"] [])).1 (fun _ => true) "hello" = false) :=
  send_spec (onOpen (initState ["ws://a"] [])).1 (fun _ => true) "hello"

/-- C8: whenever a transport open succeeds — from any prior state, after
any number of failed attempts or endpoint switches — the `open` handler
resets `reconnectAttempts` and `serviceCycles` to 0 (observable through
the next snapshot) and starts the heartbeat timer. -/
theorem open_resets_counters (s : ConnState) :
    (onOpen s).1.reconnectAttempts = 0 ∧
    (onOpen s).1.serviceCycles = 0 ∧
    (onOpen s).1.pingTimer = true ∧
    (getConnectionInfo (onOpen s).1).reconnectAttempts = 0 ∧
    (getConnectionInfo (onOpen s).1).serviceCycles = 0 ∧
    (getConnectionInfo (onOpen s).1).state = ConnectionState.connected ∧
    (onOpen s).2 = [Event.opened] :=
  ⟨rfl, rfl, rfl, rfl, rfl, rfl, rfl⟩

/-!
## Snapshot aliasing (`getConnectionInfo`, claim C9)

In the pure model `getConnectionInfo` is a function of the state, so to
express the aliasing-freedom of the copy `allServices: [...this.services]`
(line 126) we model JS array objects with reference semantics: a `Store`
of array objects addressed by index, the manager holding a reference to
its `services` array, and the snapshot constructor allocating a fresh
array holding a copy of the current contents.  The scalar snapshot fields
are copied by value and cannot alias. -/

/-- A heap of JS array objects. -/
structure Store where
  arrays : List (List String)

/-- Allocate a fresh array object. -/
def allocArr (st : Store) (v : List String) : Store × ℕ :=
  ({ arrays := st.arrays ++ [v] }, st.arrays.length)

/-- Read an array object through its reference. -/
def readArr (st : Store) (r : ℕ) : List String :=
  st.arrays.getD r []

/-- Mutate an array object in place through its reference. -/
def writeArr (st : Store) (r : ℕ) (v : List String) : Store :=
  { arrays := st.arrays.set r v }

/-- The manager's reference to its `services` array. -/
structure MgrRef where
  servicesRef : ℕ

/-- The reference held by a returned snapshot's `allServices` field. -/
structure SnapRef where
  allServicesRef : ℕ

/-- `getConnectionInfo`'s `allServices: [...this.services]` (line 126)
under reference semantics: allocate a fresh array containing a copy of the
manager's current `services` contents. -/
def getInfoRef (st : Store) (m : MgrRef) : Store × SnapRef :=
  let r := allocArr st (readArr st m.servicesRef)
  (r.1, { allServicesRef := r.2 })

/-- C9: the snapshot is a copy that never aliases live mutable state: its
`allServices` array is a fresh object (different reference) with equal
contents; writing through the snapshot's array leaves the manager's array
unchanged, and a later write through the manager's array leaves the
snapshot's array unchanged.  In the pure model the snapshot's
`allServices` equals the state's `services` field value. -/
theorem snapshot_no_alias (st : Store) (m : MgrRef)
    (h : m.servicesRef < st.arrays.length) (s : ConnState) :
    (getConnectionInfo s).allServices = s.services ∧
    (getInfoRef st m).2.allServicesRef ≠ m.servicesRef ∧
    readArr (getInfoRef st m).1 (getInfoRef st m).2.allServicesRef =
      readArr st m.servicesRef ∧
    (∀ v, readArr (writeArr (getInfoRef st m).1 (getInfoRef st m).2.allServicesRef v)
        m.servicesRef = readArr st m.servicesRef) ∧
    (∀ v, readArr (writeArr (getInfoRef st m).1 m.servicesRef v)
        (getInfoRef st m).2.allServicesRef = readArr st m.servicesRef) := by
  refine ⟨rfl, by simp only [getInfoRef, allocArr]; omega, ?_, ?_, ?_⟩
  · simp only [getInfoRef, allocArr, readArr]
    simp [List.getD_eq_getElem?_getD]
  · intro v
    simp only [getInfoRef, allocArr, readArr, writeArr]
    rw [List.getD_eq_getElem?_getD, List.getElem?_set_ne (by omega)]
    rw [← List.getD_eq_getElem?_getD]
    simp [List.getD_eq_getElem?_getD, List.getElem?_append, h]
  · intro v
    simp only [getInfoRef, allocArr, readArr, writeArr]
    rw [List.getD_eq_getElem?_getD, List.getElem?_set_ne (by omega)]
    simp [List.getD_eq_getElem?_getD]

theorem snapshot_no_alias_inst :
    (getConnectionInfo (initState ["ws://a"] [])).allServices =
      (initState ["ws://a"] []).services ∧
    (getInfoRef ⟨[["ws://a"]]⟩ ⟨0⟩).2.allServicesRef ≠ (⟨0⟩ : MgrRef).servicesRef ∧
    readArr (getInfoRef ⟨[["ws://a"]]⟩ ⟨0⟩).1 (getInfoRef ⟨[["ws://a"]]⟩ ⟨0⟩).2.allServicesRef =
      readArr ⟨[["ws://a"]]⟩ (⟨0⟩ : MgrRef).servicesRef ∧
    (∀ v, readArr (writeArr (getInfoRef ⟨[["ws://a"]]⟩ ⟨0⟩).1
        (getInfoRef ⟨[["ws://a"]]⟩ ⟨0⟩).2.allServicesRef v)
        (⟨0⟩ : MgrRef).servicesRef = readArr ⟨[["ws://a"]]⟩ (⟨0⟩ : MgrRef).servicesRef) ∧
    (∀ v, readArr (writeArr (getInfoRef ⟨[["ws://a"]]⟩ ⟨0⟩).1
        (⟨0⟩ : MgrRef).servicesRef v)
        (getInfoRef ⟨[["ws://a"]]⟩ ⟨0⟩).2.allServicesRef =
      readArr ⟨[["ws://a"]]⟩ (⟨0⟩ : MgrRef).servicesRef) :=
  snapshot_no_alias ⟨[["ws://a"]]⟩ ⟨0⟩ (by simp) (initState ["ws://a"] [])

/-!
## Facade message path (`WebSocketClient.wireEvents` / `toRawString`)
-/

/-- `WebSocket.Data` as received by the `message` listener: a string, a
`Buffer`, an `ArrayBuffer`, an array of `Buffer`s — or anything else the
runtime might hand over (`other`). -/
inductive WsData where
  | str (s : String)
  | buffer (bytes : List ℕ)
  | arrayBuffer (bytes : List ℕ)
  | bufferArray (buffers : List (List ℕ))
  | other

/-- `toRawString` (lines 164-178).  Byte-sequence-to-string decoding
(`Buffer.toString("utf-8")`, total in Node) is a boundary capability
`utf8`; `Buffer.concat` is list flattening. -/
def toRawString (utf8 : List ℕ → String) : WsData → Option String
  | .str s => some s
  | .buffer b => some (utf8 b)
  | .arrayBuffer b => some (utf8 b)
  | .bufferArray bs => some (utf8 bs.flatten)
  | .other => none

/-- The facade's `message` path (lines 151-161 plus the connection-side
handler, lines 189-193): the connection handler first counts the message,
then the client converts the data; if conversion yields `null` nothing
further happens, otherwise the router is invoked with a fresh snapshot. -/
def clientOnMessage (utf8 : List ℕ → String) (parse : String → Option Json)
    (regs : List Registration) (sendFn : Json → Bool) (s : ConnState)
    (d : WsData) (now : ℕ) : ConnState × List REvent :=
  let s1 := onMessageConn s now
  match toRawString utf8 d with
  | none => (s1, [])
  | some raw => (s1, route parse regs raw sendFn (getConnectionInfo s1))

/-- C10: an inbound message whose data is not a string, `Buffer`,
`ArrayBuffer` or array of `Buffer`s (`toRawString` returns `null`) is
silently dropped: the router is never invoked and no error event is
emitted (the router event list is empty), even though the
connection-level message counter has already been incremented. -/
theorem nonDecodable_data_dropped (utf8 : List ℕ → String)
    (parse : String → Option Json) (regs : List Registration)
    (sendFn : Json → Bool) (s : ConnState) (d : WsData) (now : ℕ)
    (h : toRawString utf8 d = none) :
    clientOnMessage utf8 parse regs sendFn s d now = (onMessageConn s now, []) ∧
    (clientOnMessage utf8 parse regs sendFn s d now).1.messageCount =
      s.messageCount + 1 ∧
    (clientOnMessage utf8 parse regs sendFn s d now).2 = [] := by
  unfold clientOnMessage
  rw [h]
  exact ⟨rfl, rfl, rfl⟩

theorem nonDecodable_data_dropped_inst :
    clientOnMessage (fun _ => "") (fun _ => some .null)
        [matchOkReg, matchThrowReg, rejectReg] (fun _ => false)
        (initState ["ws://a"] []) .other 42 =
      (onMessageConn (initState ["ws://a"] []) 42, []) ∧
    (clientOnMessage (fun _ => "") (fun _ => some .null)
        [matchOkReg, matchThrowReg, rejectReg] (fun _ => false)
        (initState ["ws://a"] []) .other 42).1.messageCount =
      (initState ["ws://a"] []).messageCount + 1 ∧
    (clientOnMessage (fun _ => "") (fun _ => some .null)
        [matchOkReg, matchThrowReg, rejectReg] (fun _ => false)
        (initState ["ws://a"] []) .other 42).2 = [] :=
  nonDecodable_data_dropped (fun _ => "") (fun _ => some .null)
    [matchOkReg, matchThrowReg, rejectReg] (fun _ => false)
    (initState ["ws://a"] []) .other 42 rfl

end Wah
